import Mathlib

/-!
Verification of the spatio-temporal database spec against the
`sitan2008/spatio` repository (Python bindings in
`src/py-spatio/src/spatio/`, tests in `src/py-spatio/tests/test_spatio.py`).
The compiled Rust core `spatio._spatio` is not part of the repository
checkout; where a definition embeds behaviour of that core its doc comment
says `Modelled from the spec:` and names the missing piece.  Everything
else is translated from the Python sources (`types.py`, the test file).
Floating-point scalars of the source are modelled as rationals; the
real-valued Haversine distance is modelled over the reals.
-/

namespace SpatioModel

/-- Byte sequences (Python `bytes`), modelled as lists of byte values. -/
abbrev Bytes := List Nat

/-- Error kinds of the spec's error taxonomy (§7) and the exception classes
in `src/spatio/types.py` (`InvalidCoordinateError`, `ConfigurationError`,
`DatabaseClosedError`; `ValueError` raised by `validate_distance` /
`validate_limit` and by trajectory validation corresponds to the spec's
`InvalidArgument` / `InvalidTrajectory` kinds). -/
inductive DbErr where
  | invalidCoordinate
  | invalidConfiguration
  | invalidTrajectory
  | invalidArgument
  | databaseClosed
  | ioFailure
  deriving DecidableEq, Repr

/-- Boolean success test for an `Except` result (a call that did not raise). -/
def exceptOk {ε α : Type} : Except ε α → Bool
  | .ok _ => true
  | .error _ => false

/-- `MIN_LATITUDE` from `types.py` line 28. -/
def MIN_LATITUDE : ℚ := -90

/-- `MAX_LATITUDE` from `types.py` line 29. -/
def MAX_LATITUDE : ℚ := 90

/-- `MIN_LONGITUDE` from `types.py` line 30. -/
def MIN_LONGITUDE : ℚ := -180

/-- `MAX_LONGITUDE` from `types.py` line 31. -/
def MAX_LONGITUDE : ℚ := 180

/-- `validate_latitude` from `types.py` lines 167-172: raises
`InvalidCoordinateError` unless `MIN_LATITUDE <= lat <= MAX_LATITUDE`. -/
def validate_latitude (lat : ℚ) : Except DbErr Unit :=
  if MIN_LATITUDE ≤ lat ∧ lat ≤ MAX_LATITUDE then .ok () else .error .invalidCoordinate

/-- `validate_longitude` from `types.py` lines 175-180. -/
def validate_longitude (lon : ℚ) : Except DbErr Unit :=
  if MIN_LONGITUDE ≤ lon ∧ lon ≤ MAX_LONGITUDE then .ok () else .error .invalidCoordinate

/-- `validate_coordinates` from `types.py` lines 183-186: validates the
latitude, then the longitude. -/
def validate_coordinates (lat lon : ℚ) : Except DbErr Unit :=
  match validate_latitude lat with
  | .error e => .error e
  | .ok _ => validate_longitude lon

/-- `validate_geohash_precision` from `types.py` lines 189-194: raises
`ConfigurationError` unless `1 <= precision <= 12`. -/
def validate_geohash_precision (precision : Int) : Except DbErr Unit :=
  if 1 ≤ precision ∧ precision ≤ 12 then .ok () else .error .invalidConfiguration

/-- `validate_ttl` from `types.py` lines 197-200: raises `ConfigurationError`
("TTL must be positive") when `ttl_seconds <= 0`. -/
def validate_ttl (ttl_seconds : ℚ) : Except DbErr Unit :=
  if ttl_seconds ≤ 0 then .error .invalidConfiguration else .ok ()

/-- `validate_distance` from `types.py` lines 203-206: raises `ValueError`
("Distance must be non-negative") when `distance < 0`.  Stated over any
linearly ordered type with a zero so that it applies to the rational model
and to the real-valued distance alike. -/
def validate_distance {α : Type} [Zero α] [LinearOrder α] (distance : α) : Except DbErr Unit :=
  if distance < 0 then .error .invalidArgument else .ok ()

/-- `validate_limit` from `types.py` lines 209-212: raises `ValueError`
("Limit must be positive") when `limit <= 0`.  In particular `limit == 0`
is rejected. -/
def validate_limit (limit : Int) : Except DbErr Unit :=
  if limit ≤ 0 then .error .invalidArgument else .ok ()

/-- A latitude/longitude pair (§3 `Point`), parametrised by the scalar type:
rationals for the executable model, reals for the Haversine distance. -/
structure Point (α : Type) where
  lat : α
  lon : α
  deriving DecidableEq, Repr

/-- Modelled from the spec: the `Point(lat, lon)` constructor of the Rust
core (not under `src/`); §3 says construction with out-of-range values
fails with `InvalidCoordinate`, and `validate_coordinates` in `types.py`
mirrors the check. -/
def mkPoint (lat lon : ℚ) : Except DbErr (Point ℚ) :=
  match validate_coordinates lat lon with
  | .error e => .error e
  | .ok _ => .ok ⟨lat, lon⟩

/-- The `SetOptions` carrier (§9: a tagged variant None / Ttl / Expiry). -/
inductive SetOptions where
  | noExpiry
  | ttl (seconds : ℚ)
  | expiry (timestamp : ℚ)
  deriving DecidableEq, Repr

/-- Modelled from the spec: `SetOptions.with_ttl(seconds > 0)` of the Rust
core (not under `src/`); §4.3 requires TTL strictly positive and
`validate_ttl` in `types.py` mirrors the check, which
`test_invalid_ttl` exercises at `-1.0` and `0.0`. -/
def SetOptions.with_ttl (ttl_seconds : ℚ) : Except DbErr SetOptions :=
  match validate_ttl ttl_seconds with
  | .error e => .error e
  | .ok _ => .ok (.ttl ttl_seconds)

/-- Record kinds (§3): scalar, geo, trajectory. -/
inductive RecKind where
  | scalar
  | geo
  | trajectory
  deriving DecidableEq, Repr

/-- A stored record (§3): payload, optional absolute expiry instant, kind. -/
structure Record where
  payload : Bytes
  expiry : Option ℚ
  kind : RecKind
  deriving DecidableEq, Repr

/-- The storage engine's mapping from byte keys to records (§4.3),
modelled as an association list. -/
abbrev Store := List (Bytes × Record)

/-- Lookup of the record stored under a key. -/
def findRecord : Store → Bytes → Option Record
  | [], _ => none
  | e :: rest, k => if e.1 = k then some e.2 else findRecord rest k

/-- Removal of every binding of a key. -/
def removeKey : Store → Bytes → Store
  | [], _ => []
  | e :: rest, k => if e.1 = k then removeKey rest k else e :: removeKey rest k

/-- A record is logically absent when its expiry is present and `≤ now` (§3). -/
def Record.isExpiredAt (r : Record) (now : ℚ) : Bool :=
  match r.expiry with
  | none => false
  | some t => decide (t ≤ now)

/-- A database handle: the closed flag and the store.  Counters are not
modelled. -/
structure Spatio where
  closed : Bool
  store : Store
  deriving DecidableEq, Repr

/-- `Spatio.memory()`: a fresh in-memory handle (§6). -/
def Spatio.memory : Spatio := ⟨false, []⟩

/-- `close()` marks the handle closed.  Translated from
`test_operations_on_closed_database` (`tests/test_spatio.py` lines
340-354): the test closes a handle, then inserts and reads back a value
successfully, noting that the current implementation allows operations
after close; accordingly no operation below consults the flag. -/
def Spatio.close (db : Spatio) : Spatio := { db with closed := true }

/-- The absolute expiry derived from the options (§4.3): a TTL is added to
the insertion instant, an absolute expiry is kept as is. -/
def expiryOfOptions (opts : SetOptions) (now : ℚ) : Option ℚ :=
  match opts with
  | .noExpiry => none
  | .ttl s => some (now + s)
  | .expiry t => some t

/-- Modelled from the spec: `insert(key, payload, options?)` of the storage
engine (§4.3, Rust core not under `src/`): overwrites any existing record
atomically.  Per `test_operations_on_closed_database` the closed flag is
not consulted. -/
def Spatio.insert (db : Spatio) (key value : Bytes) (opts : SetOptions) (now : ℚ) : Spatio :=
  { db with store := (key, ⟨value, expiryOfOptions opts now, .scalar⟩) :: removeKey db.store key }

/-- Modelled from the spec: `get(key)` (§4.3, Rust core not under `src/`):
returns the payload if the record exists and has not expired, else `None`;
a found-but-expired record is reaped.  Returns the value and the
possibly-reaped store. -/
def Spatio.get (db : Spatio) (key : Bytes) (now : ℚ) : Option Bytes × Spatio :=
  match findRecord db.store key with
  | none => (none, db)
  | some r =>
    if r.isExpiredAt now then (none, { db with store := removeKey db.store key })
    else (some r.payload, db)

/-- Modelled from the spec: `delete(key)` (§4.3, Rust core not under
`src/`): removes the record if present and returns its payload; returns
`None` if absent or already expired. -/
def Spatio.delete (db : Spatio) (key : Bytes) (now : ℚ) : Option Bytes × Spatio :=
  match findRecord db.store key with
  | none => (none, db)
  | some r =>
    if r.isExpiredAt now then (none, { db with store := removeKey db.store key })
    else (some r.payload, { db with store := removeKey db.store key })

/-- An entry of the spatial index (§4.4): the caller namespace label, the
uid allocated at insert time from the per-database monotonically
increasing counter, the point, and the user payload.  The composite key
`<prefix>:geo:<geohash>:<uid>` of §3 carries exactly these data. -/
structure GeoEntry (α : Type) where
  ns : String
  uid : Nat
  pt : Point α
  payload : Bytes
  deriving DecidableEq

/-- A `find_nearby` result entry: the decoded point, the payload, the
great-circle distance to the query center, and the entry's uid (used only
as the sort tiebreak). -/
structure NearRes (α : Type) where
  pt : Point α
  payload : Bytes
  dist : α
  uid : Nat
  deriving DecidableEq

/-- The result order of `find_nearby` (§4.4 step 3): ascending distance,
ties broken by ascending uid (insertion order). -/
def resLE {α : Type} [LinearOrder α] (a b : NearRes α) : Prop :=
  a.dist < b.dist ∨ (a.dist = b.dist ∧ a.uid ≤ b.uid)

instance {α : Type} [LinearOrder α] : DecidableRel (@resLE α _) := fun a b => by
  unfold resLE; infer_instance

instance {α : Type} [LinearOrder α] : IsTotal (NearRes α) resLE := by
  constructor
  intro a b
  rcases lt_trichotomy a.dist b.dist with h | h | h
  · exact Or.inl (Or.inl h)
  · rcases Nat.le_total a.uid b.uid with hu | hu
    · exact Or.inl (Or.inr ⟨h, hu⟩)
    · exact Or.inr (Or.inr ⟨h.symm, hu⟩)
  · exact Or.inr (Or.inl h)

instance {α : Type} [LinearOrder α] : IsTrans (NearRes α) resLE := by
  constructor
  intro a b c hab hbc
  rcases hab with h1 | ⟨h1, hu1⟩
  · rcases hbc with h2 | ⟨h2, _⟩
    · exact Or.inl (h1.trans h2)
    · exact Or.inl (h2 ▸ h1)
  · rcases hbc with h2 | ⟨h2, hu2⟩
    · exact Or.inl (h1 ▸ h2)
    · exact Or.inr ⟨h1.trans h2, hu1.trans hu2⟩

/-- Modelled from the spec: `insert_point(prefix, point, payload)` (§4.4,
Rust core not under `src/`): validates the point, allocates the next uid
of the per-database counter, and writes the entry under the namespace. -/
structure GeoDb where
  entries : List (GeoEntry ℚ)
  nextUid : Nat
  deriving DecidableEq

/-- Modelled from the spec: the write path of `insert_point` (§4.4). -/
def insert_point (g : GeoDb) (ns : String) (lat lon : ℚ) (payload : Bytes) :
    Except DbErr GeoDb :=
  match mkPoint lat lon with
  | .error e => .error e
  | .ok p => .ok ⟨g.entries ++ [⟨ns, g.nextUid, p, payload⟩], g.nextUid + 1⟩

/-- Modelled from the spec: `find_nearby(prefix, center, radius_m, limit)`
(§4.4, Rust core not under `src/`).  The radius and the limit are checked
by `validate_distance` and `validate_limit` from `types.py` (the latter
rejects `limit ≤ 0`).  Candidate enumeration by geohash neighbour rings is
abstracted to a scan of every entry of the namespace: §4.4 allows falling
back to a scan over a truncated (here: empty) geohash pattern, and the
exact great-circle filter in step 2 makes any candidate superset return
the same results.  The distance function is a parameter;
`find_nearby` is used below instantiated with the Haversine distance. -/
def find_nearby {α : Type} [Zero α] [LinearOrder α] (dist : Point α → Point α → α)
    (entries : List (GeoEntry α)) (ns : String) (center : Point α) (radius : α)
    (limit : Int) : Except DbErr (List (NearRes α)) :=
  match validate_distance radius with
  | .error e => .error e
  | .ok _ =>
    match validate_limit limit with
    | .error e => .error e
    | .ok _ =>
      let cand := entries.filter (fun e => decide (e.ns = ns))
      let hits := (cand.map (fun e => NearRes.mk e.pt e.payload (dist center e.pt) e.uid)).filter
        (fun x => decide (x.dist ≤ radius))
      .ok ((hits.insertionSort resLE).take limit.toNat)

/-- `EARTH_RADIUS_METERS` from `types.py` line 221. -/
def EARTH_RADIUS_METERS : ℝ := 6371000

/-- Degrees to radians. -/
noncomputable def deg2rad (d : ℝ) : ℝ := d * (Real.pi / 180)

/-- The haversine intermediate term
`sin²(Δφ/2) + cos φ₁ · cos φ₂ · sin²(Δλ/2)`. -/
noncomputable def havArg (a b : Point ℝ) : ℝ :=
  Real.sin (deg2rad (b.lat - a.lat) / 2) ^ 2 +
    Real.cos (deg2rad a.lat) * Real.cos (deg2rad b.lat) *
      Real.sin (deg2rad (b.lon - a.lon) / 2) ^ 2

/-- Modelled from the spec: `distance(a, b)` (§4.2, Rust core not under
`src/`): the Haversine great-circle distance in meters on a sphere of
radius `EARTH_RADIUS_METERS = 6_371_000` m, modelled over the reals (the
source computes with IEEE-754 doubles). -/
noncomputable def haversineDistance (a b : Point ℝ) : ℝ :=
  2 * EARTH_RADIUS_METERS * Real.arcsin (Real.sqrt (havArg a b))

/-- A Python number in a timestamp position: `TimestampType = Union[int, float]`
(`types.py` line 23).  Floats are modelled as rationals. -/
inductive PyNum where
  | int (n : Int)
  | float (q : ℚ)
  deriving DecidableEq

/-- Numeric value of a timestamp argument. -/
def PyNum.toRat : PyNum → ℚ
  | .int n => (n : ℚ)
  | .float q => q

/-- Whether a Python number is a float. -/
def PyNum.isFloat : PyNum → Bool
  | .int _ => false
  | .float _ => true

/-- The millisecond key of a timestamp: §4.5 renders trajectory keys as the
20-digit zero-padded decimal of `floor(timestamp * 1000)`. -/
def tsKey (t : ℚ) : Int := ⌊t * 1000⌋

/-- A record of the trajectory store (§4.5): series id, point, and the raw
timestamp double stored in the record payload. -/
structure TrajEntry where
  series : String
  pt : Point ℚ
  ts : ℚ
  deriving DecidableEq

/-- The composite key `<series_id>:traj:<ts_padded>` of a trajectory entry,
as its (series id, millisecond) pair: with the fixed-width zero padding of
§4.5, lexical order on the rendered keys of one series equals numeric
order on these pairs. -/
def trajKey (e : TrajEntry) : String × Int := (e.series, tsKey e.ts)

/-- The trajectory records held by the storage engine. -/
abbrev TrajStore := List TrajEntry

/-- Modelled from the spec: `insert_trajectory(series_id, items)` (§4.5,
Rust core not under `src/`): every item must be a (Point, timestamp) pair
with a finite timestamp ≥ 0.  Pair shape and finiteness are enforced by
the typed binding layer (`test_invalid_trajectory_data` exercises the
shape errors), so the model validates `timestamp ≥ 0`.  On any malformed
item the whole call fails with `InvalidTrajectory` and the store comes
back unchanged; otherwise each item is written, overwriting on a
millisecond-key conflict in the style of the storage engine. -/
def insert_trajectory (store : TrajStore) (sid : String)
    (items : List (Point ℚ × PyNum)) : Option DbErr × TrajStore :=
  if items.all (fun it => decide (0 ≤ it.2.toRat)) then
    (none, items.foldl (fun s it =>
      s.filter (fun e => decide (¬(e.series = sid ∧ tsKey e.ts = tsKey it.2.toRat)))
        ++ [⟨sid, it.1, it.2.toRat⟩]) store)
  else (some .invalidTrajectory, store)

/-- The scan order of a trajectory range scan: ascending millisecond key
(the lexical order of the padded composite keys within one series). -/
def millisLE (a b : TrajEntry) : Prop := tsKey a.ts ≤ tsKey b.ts

instance : DecidableRel millisLE := fun a b => by unfold millisLE; infer_instance

instance : IsTotal TrajEntry millisLE :=
  ⟨fun a b => Int.le_total (tsKey a.ts) (tsKey b.ts)⟩

instance : IsTrans TrajEntry millisLE :=
  ⟨fun _ _ _ h1 h2 => le_trans h1 h2⟩

/-- Ascending raw-timestamp order on trajectory entries. -/
def tsLE (a b : TrajEntry) : Prop := a.ts ≤ b.ts

/-- Modelled from the spec: `query_trajectory(series_id, t_start, t_end)`
(§4.5, Rust core not under `src/`): a range scan over the series prefix
bounded inclusively by the padded (that is, millisecond) forms of
`t_start` and `t_end`, yielded in ascending key order. -/
def query_trajectory (store : TrajStore) (sid : String) (t0 t1 : ℚ) : List TrajEntry :=
  (store.filter (fun e =>
      decide (e.series = sid ∧ tsKey t0 ≤ tsKey e.ts ∧ tsKey e.ts ≤ tsKey t1))).insertionSort
    millisLE

/-- Modelled from the spec: the binding-layer result of `query_trajectory`
— (point, timestamp) pairs whose timestamp is reconstructed from the
8-byte IEEE-754 double stored in the record payload (§4.5), hence always a
float, whatever numeric type was passed at insert time. -/
def query_trajectory_api (store : TrajStore) (sid : String) (t0 t1 : ℚ) :
    List (Point ℚ × PyNum) :=
  (query_trajectory store sid t0 t1).map (fun e => (e.pt, PyNum.float e.ts))

/-- Boolean check that every returned timestamp lies within `[t0, t1]`. -/
def tsAllWithin (t0 t1 : ℚ) (l : List TrajEntry) : Bool :=
  l.all (fun e => decide (t0 ≤ e.ts ∧ e.ts ≤ t1))

/-- A store holding one point of series `"v1"` at timestamp `5.0001` s
(millisecond key `5000`). -/
def fracStore : TrajStore := [⟨"v1", ⟨0, 0⟩, 5 + 1/10000⟩]

/-- The three-point trajectory of spec S5 / `test_trajectory_operations`,
inserted with integer timestamps under one series. -/
def scenarioItems : List (Point ℚ × PyNum) :=
  [(⟨40.7128, -74.0060⟩, PyNum.int 1640995200),
   (⟨40.7150, -74.0040⟩, PyNum.int 1640995260),
   (⟨40.7172, -74.0020⟩, PyNum.int 1640995320)]

/-- The store obtained by inserting the S5 trajectory into an empty store. -/
def scenarioStore : TrajStore := (insert_trajectory [] "v1" scenarioItems).2

/-- The byte string `b"key"`. -/
def keyDemo : Bytes := [107, 101, 121]

/-- The byte string `b"value"`. -/
def valueDemo : Bytes := [118, 97, 108, 117, 101]

/-- C1: the spec claims every operation on a closed handle fails with
`DatabaseClosed`; the code does not implement this.
`test_operations_on_closed_database` closes a handle, then
`insert(b"key", b"value")` succeeds and `get(b"key")` returns
`b"value"` — the test itself calls this "a limitation of the current
API".  This theorem evaluates the model at the test's failing input:
after `close()`, insert succeeds and get returns the inserted value
instead of failing with `DatabaseClosed`. -/
theorem c1_operations_after_close_succeed :
    ((Spatio.memory.close.insert keyDemo valueDemo SetOptions.noExpiry 0).get keyDemo 0).1
      = some valueDemo := by
  rfl

/-- C3: on a fresh handle, after `insert(k, v)` with no expiry, `get(k)`
returns `v`; `delete(k)` then returns `v`; a subsequent `get(k)` returns
`None`; and `get` of a key never inserted returns `None` (spec S1, P3;
`test_basic_key_value_operations`). -/
theorem c3_kv_roundtrip :
    ∀ (k v : Bytes) (now : ℚ),
      ((Spatio.memory.insert k v SetOptions.noExpiry now).get k now).1 = some v
      ∧ ((Spatio.memory.insert k v SetOptions.noExpiry now).delete k now).1 = some v
      ∧ ((((Spatio.memory.insert k v SetOptions.noExpiry now).delete k now).2).get k now).1 = none
      ∧ (Spatio.memory.get k now).1 = none := by
  intro k v now
  refine ⟨?_, ?_, ?_, ?_⟩ <;>
    simp [Spatio.memory, Spatio.insert, Spatio.get, Spatio.delete, findRecord, removeKey,
      expiryOfOptions, Record.isExpiredAt]

/-- C6: `Point(lat, lon)` construction fails with `InvalidCoordinate`
exactly when `lat` is outside `[-90, 90]` or `lon` is outside
`[-180, 180]` (`validate_coordinates`, `types.py` lines 167-186); the four
out-of-range inputs of spec S7 and
`test_invalid_point_creation_equivalence_partition` are rejected and the
boundary values are accepted. -/
theorem c6_point_validation :
    (∀ lat lon : ℚ, exceptOk (mkPoint lat lon) = true ↔
        (-90 ≤ lat ∧ lat ≤ 90 ∧ -180 ≤ lon ∧ lon ≤ 180))
    ∧ mkPoint 91 0 = Except.error DbErr.invalidCoordinate
    ∧ mkPoint (-91) 0 = Except.error DbErr.invalidCoordinate
    ∧ mkPoint 0 181 = Except.error DbErr.invalidCoordinate
    ∧ mkPoint 0 (-181) = Except.error DbErr.invalidCoordinate
    ∧ mkPoint 90 180 = Except.ok ⟨90, 180⟩
    ∧ mkPoint (-90) (-180) = Except.ok ⟨-90, -180⟩ := by
  refine ⟨?_, by rfl, by rfl, by rfl, by rfl, by rfl, by rfl⟩
  intro lat lon
  unfold mkPoint validate_coordinates validate_latitude validate_longitude
    MIN_LATITUDE MAX_LATITUDE MIN_LONGITUDE MAX_LONGITUDE exceptOk
  split_ifs with h1 h2 <;> simp_all

/-- C8: `SetOptions.with_ttl(s)` fails with `InvalidConfiguration` for
every `s ≤ 0` (including exactly `0`) and succeeds for every `s > 0`
(`validate_ttl`, `types.py` lines 197-200; `test_invalid_ttl`). -/
theorem c8_with_ttl_validation :
    (∀ s : ℚ, exceptOk (SetOptions.with_ttl s) = true ↔ 0 < s)
    ∧ SetOptions.with_ttl 0 = Except.error DbErr.invalidConfiguration
    ∧ SetOptions.with_ttl (-1) = Except.error DbErr.invalidConfiguration
    ∧ (∀ s : ℚ, 0 < s → SetOptions.with_ttl s = Except.ok (SetOptions.ttl s)) := by
  refine ⟨?_, by rfl, by rfl, ?_⟩
  · intro s
    by_cases h : s ≤ 0
    · simp [SetOptions.with_ttl, validate_ttl, if_pos h, exceptOk, not_lt.mpr h]
    · simp [SetOptions.with_ttl, validate_ttl, if_neg h, exceptOk, not_le.mp h]
  · intro s hs
    simp [SetOptions.with_ttl, validate_ttl, if_neg (not_le.mpr hs)]

/-- C8 witness: `with_ttl(300)` (the value used by `test_ttl_options`)
succeeds with the `Ttl` variant. -/
theorem c8_with_ttl_validation_witness :
    SetOptions.with_ttl 300 = Except.ok (SetOptions.ttl 300) :=
  c8_with_ttl_validation.2.2.2 300 (by norm_num)

/-- C6 witness: the origin is accepted. -/
theorem c6_point_validation_witness :
    exceptOk (mkPoint 0 0) = true :=
  (c6_point_validation.1 0 0).mpr (by norm_num)

/-- Evaluation of the S5 insertion: the three items land in the store with
their timestamps coerced to rationals (doubles), in insertion order. -/
theorem scenarioStore_eq :
    scenarioStore = [⟨"v1", ⟨40.7128, -74.0060⟩, 1640995200⟩,
                     ⟨"v1", ⟨40.7150, -74.0040⟩, 1640995260⟩,
                     ⟨"v1", ⟨40.7172, -74.0020⟩, 1640995320⟩] := by
  norm_num [scenarioStore, scenarioItems, insert_trajectory, PyNum.toRat, tsKey]

/-- Evaluation of the S5 query: all three entries come back in ascending
timestamp order. -/
theorem query_scenario_eq :
    query_trajectory scenarioStore "v1" 1640995200 1640995320
      = [⟨"v1", ⟨40.7128, -74.0060⟩, 1640995200⟩,
         ⟨"v1", ⟨40.7150, -74.0040⟩, 1640995260⟩,
         ⟨"v1", ⟨40.7172, -74.0020⟩, 1640995320⟩] := by
  rw [scenarioStore_eq]
  norm_num [query_trajectory, tsKey, millisLE, List.insertionSort, List.orderedInsert]

/-- Membership in a `query_trajectory` result forces membership in the store,
the right series, and the millisecond-key bounds of the scan. -/
theorem mem_query_trajectory {store : TrajStore} {sid : String} {t0 t1 : ℚ}
    {e : TrajEntry} (he : e ∈ query_trajectory store sid t0 t1) :
    e ∈ store ∧ e.series = sid ∧ tsKey t0 ≤ tsKey e.ts ∧ tsKey e.ts ≤ tsKey t1 := by
  unfold query_trajectory at he
  rw [List.mem_insertionSort, List.mem_filter] at he
  exact ⟨he.1, of_decide_eq_true he.2⟩

/-- C5 counterexample: the claim says every returned timestamp lies within
`[t_start, t_end]`.  The scan of §4.5 is bounded by the millisecond-floor
key forms of the bounds, so with `t_start = 5.0002` and `t_end = 6` the
stored point of series `"v1"` at timestamp `5.0001` (same millisecond key
`5000` as `t_start`) is returned even though `5.0001 < t_start`. -/
theorem c5_timestamp_window_counterexample :
    tsAllWithin (50002/10000) 6 (query_trajectory fracStore "v1" (50002/10000) 6) = false := by
  norm_num [tsAllWithin, query_trajectory, fracStore, tsKey, millisLE,
    List.insertionSort, List.orderedInsert]

/-- C5 (amended): for any store whose composite trajectory keys are unique
(the storage engine's key-uniqueness invariant, §5), `query_trajectory`
returns entries of the requested series in non-decreasing (in fact
strictly increasing) timestamp order, and every returned entry's
millisecond key lies within the millisecond keys of `[t_start, t_end]` —
the raw timestamp itself may lie up to one millisecond outside the window.
With the integer-second timestamps of spec S5 the window is exact: the
three items inserted under one series all come back, in ascending
timestamp order. -/
theorem c5_query_trajectory_amended :
    (∀ (store : TrajStore) (sid : String) (t0 t1 : ℚ),
        (store.map trajKey).Nodup →
          List.Sorted tsLE (query_trajectory store sid t0 t1))
    ∧ (∀ (store : TrajStore) (sid : String) (t0 t1 : ℚ),
        ∀ e ∈ query_trajectory store sid t0 t1,
          e.series = sid ∧ tsKey t0 ≤ tsKey e.ts ∧ tsKey e.ts ≤ tsKey t1)
    ∧ query_trajectory scenarioStore "v1" 1640995200 1640995320
        = [⟨"v1", ⟨40.7128, -74.0060⟩, 1640995200⟩,
           ⟨"v1", ⟨40.7150, -74.0040⟩, 1640995260⟩,
           ⟨"v1", ⟨40.7172, -74.0020⟩, 1640995320⟩] := by
  refine ⟨?_, ?_, query_scenario_eq⟩
  · intro store sid t0 t1 hnd
    have hs : List.Sorted millisLE ((store.filter (fun e =>
        decide (e.series = sid ∧ tsKey t0 ≤ tsKey e.ts ∧ tsKey e.ts ≤ tsKey t1))).insertionSort
          millisLE) :=
      List.sorted_insertionSort millisLE _
    have hperm := List.perm_insertionSort millisLE (store.filter (fun e =>
        decide (e.series = sid ∧ tsKey t0 ≤ tsKey e.ts ∧ tsKey e.ts ≤ tsKey t1)))
    have hndL : (((store.filter (fun e =>
        decide (e.series = sid ∧ tsKey t0 ≤ tsKey e.ts ∧ tsKey e.ts ≤ tsKey t1))).map
          trajKey)).Nodup :=
      List.Nodup.sublist ((List.filter_sublist store).map trajKey) hnd
    have hndS := ((hperm.map trajKey).nodup_iff).mpr hndL
    have hkeysne : (query_trajectory store sid t0 t1).Pairwise
        fun a b => trajKey a ≠ trajKey b := by
      rw [List.Nodup, List.pairwise_map] at hndS
      exact hndS
    refine List.Pairwise.imp_of_mem ?_ (hs.and hkeysne)
    intro a b ha hb hab
    have hsa := (mem_query_trajectory ha).2.1
    have hsb := (mem_query_trajectory hb).2.1
    have hle : tsKey a.ts ≤ tsKey b.ts := hab.1
    have hkne : tsKey a.ts ≠ tsKey b.ts := by
      intro hk
      exact hab.2 (by unfold trajKey; rw [hsa, hsb, hk])
    show a.ts ≤ b.ts
    by_contra hts
    push_neg at hts
    have hmono : tsKey b.ts ≤ tsKey a.ts := by
      unfold tsKey
      exact Int.floor_le_floor (mul_le_mul_of_nonneg_right hts.le (by norm_num))
    omega
  · intro store sid t0 t1 e he
    exact (mem_query_trajectory he).2

/-- C5 witness: the S5 store satisfies the key-uniqueness hypothesis and its
query result is sorted by timestamp; and the single entry returned from
`fracStore` satisfies the millisecond-key bounds. -/
theorem c5_query_trajectory_amended_witness :
    List.Sorted tsLE (query_trajectory scenarioStore "v1" 1640995200 1640995320)
    ∧ ((⟨"v1", ⟨0, 0⟩, 50001/10000⟩ : TrajEntry).series = "v1"
        ∧ tsKey 0 ≤ tsKey ((⟨"v1", ⟨0, 0⟩, 50001/10000⟩ : TrajEntry)).ts
        ∧ tsKey ((⟨"v1", ⟨0, 0⟩, 50001/10000⟩ : TrajEntry)).ts ≤ tsKey 6) :=
  ⟨c5_query_trajectory_amended.1 scenarioStore "v1" 1640995200 1640995320
      (by rw [scenarioStore_eq]; norm_num [trajKey, tsKey, List.Nodup]),
   c5_query_trajectory_amended.2.1 fracStore "v1" 0 6 ⟨"v1", ⟨0, 0⟩, 50001/10000⟩
      (by norm_num [query_trajectory, fracStore, tsKey,
        List.insertionSort, List.orderedInsert])⟩

/-- C7: if any item of `insert_trajectory`'s input is malformed (its
timestamp is negative; pair shape and finiteness are enforced by the typed
binding), the whole call fails with `InvalidTrajectory` and the store is
returned unchanged — no partial write is visible (§4.5 failure
semantics; `test_invalid_trajectory_data`). -/
theorem c7_insert_trajectory_invalid :
    ∀ (store : TrajStore) (sid : String) (items : List (Point ℚ × PyNum)),
      (∃ it ∈ items, it.2.toRat < 0) →
        insert_trajectory store sid items = (some DbErr.invalidTrajectory, store) := by
  intro store sid items h
  obtain ⟨it, hmem, hneg⟩ := h
  unfold insert_trajectory
  rw [if_neg]
  intro hall
  rw [List.all_eq_true] at hall
  exact absurd (of_decide_eq_true (hall it hmem)) (not_le.mpr hneg)

/-- C7 witness: a single item with timestamp `-1` is rejected whole, and the
empty store comes back unchanged. -/
theorem c7_insert_trajectory_invalid_witness :
    insert_trajectory [] "vehicle:001" [(⟨0, 0⟩, PyNum.float (-1))]
      = (some DbErr.invalidTrajectory, []) :=
  c7_insert_trajectory_invalid [] "vehicle:001" [(⟨0, 0⟩, PyNum.float (-1))]
    ⟨(⟨0, 0⟩, PyNum.float (-1)), by simp, by norm_num [PyNum.toRat]⟩

/-- C10: every timestamp in a `query_trajectory` result is a float — the
binding reconstructs it from the 8-byte double stored in the record
payload (§4.5) — even when the items were inserted with integer
timestamps, as in the S5 scenario (`test_trajectory_operations` asserts
`isinstance(timestamp, float)`). -/
theorem c10_query_timestamps_are_floats :
    (∀ (store : TrajStore) (sid : String) (t0 t1 : ℚ),
        (query_trajectory_api store sid t0 t1).all (fun x => x.2.isFloat) = true)
    ∧ (query_trajectory_api scenarioStore "v1" 1640995200 1640995320).map
          (fun x => x.2)
        = [PyNum.float 1640995200, PyNum.float 1640995260, PyNum.float 1640995320] := by
  constructor
  · intro store sid t0 t1
    rw [List.all_eq_true]
    intro x hx
    rw [query_trajectory_api, List.mem_map] at hx
    obtain ⟨e, _, rfl⟩ := hx
    rfl
  · rw [query_trajectory_api, query_scenario_eq]
    rfl

/-- The haversine intermediate term is symmetric in its two points. -/
theorem havArg_comm (a b : Point ℝ) : havArg a b = havArg b a := by
  unfold havArg deg2rad
  have e1 : (a.lat - b.lat) * (Real.pi / 180) / 2
      = -((b.lat - a.lat) * (Real.pi / 180) / 2) := by ring
  have e2 : (a.lon - b.lon) * (Real.pi / 180) / 2
      = -((b.lon - a.lon) * (Real.pi / 180) / 2) := by ring
  rw [e1, e2, Real.sin_neg, Real.sin_neg]
  ring

/-- C9: the Haversine distance (on the sphere of radius
`EARTH_RADIUS_METERS = 6_371_000` m) is symmetric, non-negative, and zero
from any point to itself (spec P2, §4.2; `test_point_distance`). -/
theorem c9_distance_metric_properties :
    ∀ a b : Point ℝ,
      haversineDistance a b = haversineDistance b a
      ∧ 0 ≤ haversineDistance a b
      ∧ haversineDistance a a = 0 := by
  intro a b
  refine ⟨?_, ?_, ?_⟩
  · unfold haversineDistance
    rw [havArg_comm]
  · unfold haversineDistance
    have h2 : (0 : ℝ) ≤ 2 * EARTH_RADIUS_METERS := by norm_num [EARTH_RADIUS_METERS]
    exact mul_nonneg h2 (Real.arcsin_nonneg.mpr (Real.sqrt_nonneg _))
  · unfold haversineDistance havArg deg2rad
    simp [sub_self, Real.sin_zero, Real.sqrt_zero, Real.arcsin_zero]

/-- Soundness of the `find_nearby` pipeline for any distance function:
a successful call returns only results within the radius carrying their
exact distance to the center, sorted by distance then uid, at most
`limit` of them. -/
theorem find_nearby_ok_spec {α : Type} [Zero α] [LinearOrder α]
    (dist : Point α → Point α → α) (entries : List (GeoEntry α)) (ns : String)
    (center : Point α) (radius : α) (limit : Int) (R : List (NearRes α))
    (h : find_nearby dist entries ns center radius limit = Except.ok R) :
    (∀ x ∈ R, x.dist ≤ radius ∧ x.dist = dist center x.pt)
    ∧ List.Sorted resLE R ∧ (R.length : Int) ≤ limit := by
  unfold find_nearby at h
  split at h
  · exact absurd h (by simp)
  split at h
  · exact absurd h (by simp)
  next u heqd _ v heql =>
    have hl : ¬ limit ≤ 0 := by
      intro hl0
      unfold validate_limit at heql
      rw [if_pos hl0] at heql
      cases heql
    dsimp only at h
    injection h with h
    subst h
    refine ⟨?_, ?_, ?_⟩
    · intro x hx
      have hx1 := List.mem_of_mem_take hx
      rw [List.mem_insertionSort, List.mem_filter] at hx1
      obtain ⟨hxm, hxd⟩ := hx1
      rw [List.mem_map] at hxm
      obtain ⟨e, _, rfl⟩ := hxm
      exact ⟨of_decide_eq_true hxd, rfl⟩
    · exact List.Pairwise.sublist (List.take_sublist _ _)
        (List.sorted_insertionSort resLE _)
    · have hlen : (List.take limit.toNat
          ((((entries.filter (fun e => decide (e.ns = ns))).map
            (fun e => NearRes.mk e.pt e.payload (dist center e.pt) e.uid)).filter
              (fun x => decide (x.dist ≤ radius))).insertionSort resLE)).length
          ≤ limit.toNat := by
        rw [List.length_take]
        exact min_le_left _ _
      omega

/-- C4: for every successful `find_nearby` call with the Haversine
distance, every result `(p, _, d)` satisfies `d ≤ radius` and
`d = haversineDistance center p`; the list is sorted by ascending
distance with ties broken by ascending insertion uid; and its length is
at most `limit` (spec P5, §4.4 steps 2-3; `test_point_operations`). -/
theorem c4_find_nearby_results :
    ∀ (entries : List (GeoEntry ℝ)) (ns : String) (center : Point ℝ) (radius : ℝ)
      (limit : Int) (R : List (NearRes ℝ)),
      find_nearby haversineDistance entries ns center radius limit = Except.ok R →
        (∀ x ∈ R, x.dist ≤ radius ∧ x.dist = haversineDistance center x.pt)
        ∧ List.Sorted resLE R ∧ (R.length : Int) ≤ limit :=
  fun entries ns center radius limit R h =>
    find_nearby_ok_spec haversineDistance entries ns center radius limit R h

/-- C4 witness: a query over the empty index succeeds with the empty result,
which trivially satisfies all three conclusions. -/
theorem c4_find_nearby_results_witness :
    (∀ x ∈ ([] : List (NearRes ℝ)), x.dist ≤ (0 : ℝ)
        ∧ x.dist = haversineDistance ⟨0, 0⟩ x.pt)
    ∧ List.Sorted resLE ([] : List (NearRes ℝ))
    ∧ ((([] : List (NearRes ℝ)).length : Int) ≤ 1) :=
  c4_find_nearby_results [] "cities" ⟨0, 0⟩ 0 1 [] (by
    unfold find_nearby validate_distance validate_limit
    rw [if_neg (lt_irrefl (0 : ℝ)), if_neg (by omega : ¬ (1 : Int) ≤ 0)]
    rfl)

/-- C2 counterexample: the claim says `find_nearby` with `limit == 0`
succeeds and returns the empty list; instead the limit check of
`validate_limit` (`types.py` lines 209-212, "Limit must be positive")
rejects `limit == 0`, so the call fails with the `InvalidArgument` kind
(`ValueError`). -/
theorem c2_limit_zero_counterexample :
    find_nearby haversineDistance [] "cities" ⟨40.7128, -74.0060⟩ 100 0
      = Except.error DbErr.invalidArgument := by
  unfold find_nearby validate_distance validate_limit
  rw [if_neg (by norm_num : ¬ (100 : ℝ) < 0), if_pos (by omega : (0 : Int) ≤ 0)]

/-- C2 (amended): `find_nearby` with `limit ≤ 0` — in particular
`limit == 0` — fails with the `InvalidArgument` kind (`validate_limit`
requires a strictly positive limit), and every call with `radius ≥ 0` and
`limit > 0` passes validation and succeeds. -/
theorem c2_limit_validation :
    (∀ (entries : List (GeoEntry ℝ)) (ns : String) (center : Point ℝ)
        (radius : ℝ) (limit : Int), limit ≤ 0 →
          find_nearby haversineDistance entries ns center radius limit
            = Except.error DbErr.invalidArgument)
    ∧ (∀ (entries : List (GeoEntry ℝ)) (ns : String) (center : Point ℝ)
        (radius : ℝ) (limit : Int), 0 ≤ radius → 0 < limit →
          exceptOk (find_nearby haversineDistance entries ns center radius limit)
            = true) := by
  constructor
  · intro entries ns center radius limit hl
    unfold find_nearby validate_distance validate_limit
    rw [if_pos hl]
    by_cases hr : radius < 0
    · rw [if_pos hr]
    · rw [if_neg hr]
  · intro entries ns center radius limit hr hl
    unfold find_nearby validate_distance validate_limit
    rw [if_neg (not_lt.mpr hr), if_neg (not_le.mpr hl)]
    rfl

/-- C2 witness: with `limit = 0` the call on an empty index fails with
`InvalidArgument`; with `limit = 1` it succeeds. -/
theorem c2_limit_validation_witness :
    find_nearby haversineDistance [] "x" ⟨0, 0⟩ 5 0 = Except.error DbErr.invalidArgument
    ∧ exceptOk (find_nearby haversineDistance [] "x" ⟨0, 0⟩ 5 1) = true :=
  ⟨c2_limit_validation.1 [] "x" ⟨0, 0⟩ 5 0 (by omega),
   c2_limit_validation.2 [] "x" ⟨0, 0⟩ 5 1 (by norm_num) (by omega)⟩

end SpatioModel
